import Mathlib

/-!
# ESP32 fish/plant controller: control-decision core

Shallow embedding of the control functions of `fish_plant_02.cpp` and
`fish_plant_03.cpp` (`getPumpRemainMs`, `handlePump`, `handleLED`,
`handleWaterControl`).  The two sketches have the same control logic; they
differ in the relay polarity (active-low in 02, `RELAY_ON`/`RELAY_OFF` in 03)
and in the log sink (`Serial` in 02, `appendLog` in 03).  Both differences are
abstracted here: a relay write records whether the relay is energised, and a
log line is recorded as a structured value.

Global variables of the sketch become the fields of `State`; every handler is
a function from the state (and the values it reads from the clock or the
sensor) to the next state and the list of effects it performed, in order.

`unsigned long` is 32 bits wide on the ESP32: times are natural numbers and
the subtractions of the sketch are taken modulo `2^32` (`usub`).

`DEVICE_DISCONNECTED_C` is defined by the DallasTemperature library, not by the
sketch, so `handleWaterControl` takes its value as the parameter `disc`.  The
library value is `-127`; the theorems that speak of readings in `[0, 50]`
assume only that `disc` lies outside that interval.

The sensor acquisition (`handleSensorLog`, which passes the reading to
`handleWaterControl`), the status line and the web presentation of sketch 03
are not modelled: the globals they write themselves (`lastSensorLog`,
`lastStatusLog`, `lastAirTemp`, `lastHum`, `lastWaterTemp`) are not read by the
control handlers.
-/

namespace FishPlant

/-! ## C `float` values

`handleWaterControl` only compares its `float` argument against constants that
are exactly representable (`0`, `50`, `22.0`, `22.5`, `25.5`, `26.0`), so a
float is modelled by its exact value: a rational for a finite float, plus the
two infinities and NaN with the IEEE-754 comparison rules. -/

/-- A C `float`: NaN, an infinity, or a finite value given by its exact rational. -/
inductive CFloat where
  | nan : CFloat
  | negInf : CFloat
  | posInf : CFloat
  | fin (q : ℚ) : CFloat
deriving DecidableEq

namespace CFloat

/-- C `a == b` on floats (false as soon as one side is NaN). -/
def feq : CFloat → CFloat → Bool
  | nan, _ => false
  | _, nan => false
  | negInf, negInf => true
  | posInf, posInf => true
  | fin a, fin b => decide (a = b)
  | _, _ => false

/-- C `a < b` on floats (false as soon as one side is NaN). -/
def flt : CFloat → CFloat → Bool
  | nan, _ => false
  | _, nan => false
  | negInf, negInf => false
  | negInf, _ => true
  | posInf, _ => false
  | fin _, negInf => false
  | fin _, posInf => true
  | fin a, fin b => decide (a < b)

/-- C `a <= b` on floats (false as soon as one side is NaN). -/
def fle : CFloat → CFloat → Bool
  | nan, _ => false
  | _, nan => false
  | negInf, _ => true
  | posInf, posInf => true
  | posInf, _ => false
  | fin _, negInf => false
  | fin _, posInf => true
  | fin a, fin b => decide (a ≤ b)

/-- C `a > b` on floats. -/
def fgt (a b : CFloat) : Bool := flt b a

/-- C `a >= b` on floats. -/
def fge (a b : CFloat) : Bool := fle b a

end CFloat

/-! ## Constants -/

/-- Source: `const float HEATER_ON = 22.0;` -/
def HEATER_ON : CFloat := CFloat.fin 22

/-- Source: `const float HEATER_OFF = 22.5;` -/
def HEATER_OFF : CFloat := CFloat.fin (45 / 2)

/-- Source: `const float FAN_ON = 26.0;` -/
def FAN_ON : CFloat := CFloat.fin 26

/-- Source: `const float FAN_OFF = 25.5;` -/
def FAN_OFF : CFloat := CFloat.fin (51 / 2)

/-- Source: `const unsigned long PUMP_ON_TIME = 5UL * 60UL * 1000UL;` -/
def PUMP_ON_TIME : Nat := 5 * 60 * 1000

/-- Source: `const unsigned long PUMP_OFF_TIME = 15UL * 60UL * 1000UL;` -/
def PUMP_OFF_TIME : Nat := 15 * 60 * 1000

/-- Source: `const unsigned long PUMP_REMAIN_LOG_INTERVAL = 60UL * 1000UL;` -/
def PUMP_REMAIN_LOG_INTERVAL : Nat := 60 * 1000

/-- Number of values of an `unsigned long` on the ESP32 (32 bits). -/
def ULONG_MOD : Nat := 2 ^ 32

/-- Subtraction of two `unsigned long` values, `a - b` modulo `2^32`. -/
def usub (a b : Nat) : Nat := (a % ULONG_MOD + (ULONG_MOD - b % ULONG_MOD)) % ULONG_MOD

/-! ## State and effects -/

/-- The four relays driven by the sketch. -/
inductive Relay where
  | heater : Relay
  | fan : Relay
  | led : Relay
  | pump : Relay
deriving DecidableEq

/-- What a handler does besides updating the globals, in program order. -/
inductive Effect where
  /-- A call `digitalWrite(RELAY_x, ...)`; `level` tells whether the relay is energised. -/
  | digitalWrite (r : Relay) (level : Bool) : Effect
  /-- A call `logRelay(name, on)`: the line `[time] [NAME] ON/OFF`. -/
  | logRelay (r : Relay) (isOn : Bool) : Effect
  /-- The line `[WATER] abnormal -> HEATER/FAN OFF`. -/
  | logAbnormal : Effect
  /-- The line `[time] [PUMP] OFF (15 min rest)`. -/
  | logPumpOff : Effect
  /-- The line `[time] [PUMP] ON (5 min run)`. -/
  | logPumpOn : Effect
  /-- A call `logPumpRemain(remainMs)`. -/
  | logPumpRemain (remainMs : Nat) : Effect
deriving DecidableEq

/-- True for the effects that are log lines (events), false for relay writes. -/
def Effect.isLog : Effect → Bool
  | Effect.digitalWrite _ _ => false
  | _ => true

/-- The events (log lines) among a list of effects, in order. -/
def events (tr : List Effect) : List Effect := tr.filter Effect.isLog

/-- The global variables read or written by the control handlers. -/
structure State where
  heaterState : Bool
  fanState : Bool
  ledState : Bool
  pumpState : Bool
  pumpTimer : Nat
  lastPumpRemainLog : Nat
  lastWaterTemp : CFloat
deriving DecidableEq

/-- The globals as `setup()` leaves them when its calls of `millis()` returned
`t0`; `disc` is the value of `DEVICE_DISCONNECTED_C`. -/
def State.init (t0 : Nat) (disc : ℚ) : State :=
  { heaterState := false, fanState := false, ledState := false, pumpState := false,
    pumpTimer := t0, lastPumpRemainLog := t0, lastWaterTemp := CFloat.fin disc }

/-! ## Pump -/

/-- Function `getPumpRemainMs()`, with `nowMs` the value returned by `millis()`. -/
def getPumpRemainMs (s : State) (nowMs : Nat) : Nat :=
  let target := if s.pumpState then PUMP_ON_TIME else PUMP_OFF_TIME
  let elapsed := usub nowMs s.pumpTimer
  if elapsed ≥ target then 0 else target - elapsed

/-- The tail of `handlePump()`: the periodic "remain" log, reached when no flip
happened. -/
def pumpRemainLog (s : State) (nowMs targetTime : Nat) : State × List Effect :=
  if usub nowMs s.lastPumpRemainLog ≥ PUMP_REMAIN_LOG_INTERVAL then
    let elapsed := usub nowMs s.pumpTimer
    let out := if elapsed < targetTime then [Effect.logPumpRemain (targetTime - elapsed)] else []
    ({ s with lastPumpRemainLog := nowMs }, out)
  else
    (s, [])

/-- Function `handlePump()`, with `nowMs` the value returned by `millis()`. -/
def handlePump (s : State) (nowMs : Nat) : State × List Effect :=
  if s.pumpState then
    let targetTime := PUMP_ON_TIME
    if usub nowMs s.pumpTimer ≥ targetTime then
      ({ s with pumpState := false, pumpTimer := nowMs, lastPumpRemainLog := nowMs },
        [Effect.digitalWrite Relay.pump false, Effect.logPumpOff])
    else
      pumpRemainLog s nowMs targetTime
  else
    let targetTime := PUMP_OFF_TIME
    if usub nowMs s.pumpTimer ≥ targetTime then
      ({ s with pumpState := true, pumpTimer := nowMs, lastPumpRemainLog := nowMs },
        [Effect.digitalWrite Relay.pump true, Effect.logPumpOn])
    else
      pumpRemainLog s nowMs targetTime

/-! ## Light -/

/-- Function `handleLED()`, with `hour` and `minute` the fields of `rtc.now()`. -/
def handleLED (s : State) (hour minute : Nat) : State × List Effect :=
  let curMin := hour * 60 + minute
  let onMin := 5 * 60 + 30
  let offMin := 22 * 60 + 30
  let newState := decide (curMin ≥ onMin) && decide (curMin < offMin)
  if newState != s.ledState then
    ({ s with ledState := newState },
      [Effect.digitalWrite Relay.led newState, Effect.logRelay Relay.led newState])
  else
    (s, [])

/-! ## Heater and fan -/

/-- The first `if / else if` of the hysteresis part (heater), acting on the
pair `(newHeater, newFan)`. -/
def heaterBlock (s : State) (waterTemp : CFloat) (nw : Bool × Bool) : Bool × Bool :=
  if !s.heaterState && CFloat.fle waterTemp HEATER_ON then (true, false)
  else if s.heaterState && CFloat.fge waterTemp HEATER_OFF then (false, nw.2)
  else nw

/-- The second `if / else if` of the hysteresis part (fan), acting on the pair
`(newHeater, newFan)`. -/
def fanBlock (s : State) (waterTemp : CFloat) (nw : Bool × Bool) : Bool × Bool :=
  if !s.fanState && CFloat.fge waterTemp FAN_ON then (false, true)
  else if s.fanState && CFloat.fle waterTemp FAN_OFF then (nw.1, false)
  else nw

/-- The two final `if`s of `handleWaterControl`: commit `newHeater`, then
`newFan`, writing the relay and logging each one that changed. -/
def commitWater (s : State) (newHeater newFan : Bool) : State × List Effect :=
  let r1 : State × List Effect :=
    if newHeater != s.heaterState then
      ({ s with heaterState := newHeater },
        [Effect.digitalWrite Relay.heater newHeater, Effect.logRelay Relay.heater newHeater])
    else (s, [])
  let s1 := r1.1
  if newFan != s1.fanState then
    ({ s1 with fanState := newFan },
      r1.2 ++ [Effect.digitalWrite Relay.fan newFan, Effect.logRelay Relay.fan newFan])
  else (s1, r1.2)

/-- Function `handleWaterControl(waterTemp)`; `disc` is the value of the library constant
`DEVICE_DISCONNECTED_C`, a numeric literal which the sketch takes from the
header `DallasTemperature.h`. -/
def handleWaterControl (disc : ℚ) (s : State) (waterTemp : CFloat) : State × List Effect :=
  let nw0 : Bool × Bool := (s.heaterState, s.fanState)
  if CFloat.feq waterTemp (CFloat.fin disc) || CFloat.flt waterTemp (CFloat.fin 0)
      || CFloat.fgt waterTemp (CFloat.fin 50) then
    if s.heaterState || s.fanState then
      ({ s with heaterState := false, fanState := false },
        [Effect.digitalWrite Relay.heater false, Effect.digitalWrite Relay.fan false,
          Effect.logAbnormal])
    else (s, [])
  else
    let nw := fanBlock s waterTemp (heaterBlock s waterTemp nw0)
    commitWater s nw.1 nw.2

/-- The state after calling `handlePump` at the successive times `nows`. -/
def runPump (s : State) (nows : List Nat) : State :=
  nows.foldl (fun st n => (handlePump st n).1) s

/-- The state after feeding `handleWaterControl` the readings `ts`, oldest first. -/
def runWater (disc : ℚ) (s : State) (ts : List CFloat) : State :=
  ts.foldl (fun st t => (handleWaterControl disc st t).1) s

/-- What each tick produces when feeding `handleWaterControl` the readings `ts`,
oldest first: the heater flag, the fan flag and the events of that tick. -/
def runWaterTrace (disc : ℚ) : State → List CFloat → List (Bool × Bool × List Effect)
  | _, [] => []
  | s, t :: ts =>
    ((handleWaterControl disc s t).1.heaterState, (handleWaterControl disc s t).1.fanState,
        events (handleWaterControl disc s t).2)
      :: runWaterTrace disc (handleWaterControl disc s t).1 ts

/-- The variant of `handleWaterControl` that the order-dependence claim compares
the code with: the fan `if / else if` is evaluated before the heater one.  The
conditions still read the pre-tick flags and the writes to `newHeater` and
`newFan` are the same; the fail-safe part and the commit part are as in the
code. -/
def handleWaterControlFanFirst (disc : ℚ) (s : State) (waterTemp : CFloat) :
    State × List Effect :=
  let nw0 : Bool × Bool := (s.heaterState, s.fanState)
  if CFloat.feq waterTemp (CFloat.fin disc) || CFloat.flt waterTemp (CFloat.fin 0)
      || CFloat.fgt waterTemp (CFloat.fin 50) then
    if s.heaterState || s.fanState then
      ({ s with heaterState := false, fanState := false },
        [Effect.digitalWrite Relay.heater false, Effect.digitalWrite Relay.fan false,
          Effect.logAbnormal])
    else (s, [])
  else
    let nw := heaterBlock s waterTemp (fanBlock s waterTemp nw0)
    commitWater s nw.1 nw.2

/-! ## Example states -/

/-- A state with the heater on and a last water reading of 21, started at 1000 ms. -/
def exHeaterOn : State :=
  { State.init 1000 (-127) with heaterState := true, lastWaterTemp := CFloat.fin 21 }

/-- A state with the fan on, started at 1000 ms. -/
def exFanOn : State := { State.init 1000 (-127) with fanState := true }

/-! ## Helper lemmas -/

theorem feq_fin_fin (a b : ℚ) : CFloat.feq (CFloat.fin a) (CFloat.fin b) = decide (a = b) := rfl

theorem flt_fin_fin (a b : ℚ) : CFloat.flt (CFloat.fin a) (CFloat.fin b) = decide (a < b) := rfl

theorem fle_fin_fin (a b : ℚ) : CFloat.fle (CFloat.fin a) (CFloat.fin b) = decide (a ≤ b) := rfl

theorem fgt_fin_fin (a b : ℚ) : CFloat.fgt (CFloat.fin a) (CFloat.fin b) = decide (b < a) := rfl

theorem fge_fin_fin (a b : ℚ) : CFloat.fge (CFloat.fin a) (CFloat.fin b) = decide (b ≤ a) := rfl

/-- A reading that is at most `HEATER_ON` is not at least `FAN_ON`. -/
theorem fge_fanOn_of_fle_heaterOn (t : CFloat) (h : CFloat.fle t HEATER_ON = true) :
    CFloat.fge t FAN_ON = false := by
  cases t <;> simp_all [CFloat.fle, CFloat.fge, HEATER_ON, FAN_ON]
  linarith

/-- The state after `commitWater` holds the two new flags; nothing else changes. -/
theorem commitWater_state (s : State) (nh nf : Bool) :
    (commitWater s nh nf).1 = { s with heaterState := nh, fanState := nf } := by
  rcases s with ⟨hs, fs, ls, ps, pt, lp, lw⟩
  cases hs <;> cases fs <;> cases nh <;> cases nf <;> rfl

/-- The events of `commitWater`: one relay line per flag that changed, heater first. -/
theorem commitWater_events (s : State) (nh nf : Bool) :
    events (commitWater s nh nf).2 =
      (if nh != s.heaterState then [Effect.logRelay Relay.heater nh] else [])
        ++ (if nf != s.fanState then [Effect.logRelay Relay.fan nf] else []) := by
  rcases s with ⟨hs, fs, ls, ps, pt, lp, lw⟩
  cases hs <;> cases fs <;> cases nh <;> cases nf <;> rfl

/-- One tick of `handleWaterControl` preserves "heater and fan are not both on". -/
theorem handleWaterControl_excl (disc : ℚ) (s : State) (t : CFloat)
    (h : ¬ (s.heaterState = true ∧ s.fanState = true)) :
    ¬ ((handleWaterControl disc s t).1.heaterState = true
        ∧ (handleWaterControl disc s t).1.fanState = true) := by
  have key := fge_fanOn_of_fle_heaterOn t
  unfold handleWaterControl
  simp only []
  split_ifs with h1 h2
  · simp
  · exact h
  · rw [commitWater_state]
    rcases s with ⟨hs, fs, ls, ps, pt, lp, lw⟩
    cases hs <;> cases fs <;> cases hA : CFloat.fle t HEATER_ON <;>
      cases hC : CFloat.fge t FAN_ON <;> cases hB : CFloat.fge t HEATER_OFF <;>
      cases hD : CFloat.fle t FAN_OFF <;> simp_all [heaterBlock, fanBlock]

/-- Any run of `handleWaterControl` ticks preserves "heater and fan are not both on". -/
theorem runWater_excl (disc : ℚ) (ts : List CFloat) (s : State)
    (h : ¬ (s.heaterState = true ∧ s.fanState = true)) :
    ¬ ((runWater disc s ts).heaterState = true ∧ (runWater disc s ts).fanState = true) := by
  induction ts generalizing s with
  | nil => exact h
  | cons t ts ih => exact ih _ (handleWaterControl_excl disc s t h)

/-- For a finite reading in `[0, 50]`, and a disconnected value outside that
range, the fail-safe test is false and the hysteresis part runs. -/
theorem handleWaterControl_inrange (disc q : ℚ) (s : State) (hd : disc < 0 ∨ 50 < disc)
    (h0 : 0 ≤ q) (h50 : q ≤ 50) :
    handleWaterControl disc s (CFloat.fin q) =
      commitWater s
        (fanBlock s (CFloat.fin q) (heaterBlock s (CFloat.fin q) (s.heaterState, s.fanState))).1
        (fanBlock s (CFloat.fin q) (heaterBlock s (CFloat.fin q) (s.heaterState, s.fanState))).2 := by
  have hne : q ≠ disc := by
    rintro rfl
    rcases hd with hd | hd <;> linarith
  have h1 : ¬ q < 0 := not_lt.mpr h0
  have h2 : ¬ 50 < q := not_lt.mpr h50
  simp [handleWaterControl, feq_fin_fin, flt_fin_fin, fgt_fin_fin, hne, h1, h2]

/-- Without wrap-around, `unsigned long` subtraction is the ordinary difference. -/
theorem usub_of_le (a b : Nat) (hba : b ≤ a) (ha : a < ULONG_MOD) : usub a b = a - b := by
  unfold usub ULONG_MOD at *
  omega

/-- The time elapsed since `t0` is recovered modulo `2^32`, also when the
counter wrapped in between. -/
theorem usub_add_mod (t0 d : Nat) (hd : d < ULONG_MOD) :
    usub ((t0 + d) % ULONG_MOD) t0 = d := by
  unfold usub ULONG_MOD at *
  omega

theorem usub_self (a : Nat) : usub a a = 0 := by
  unfold usub ULONG_MOD
  omega

/-- The pump flag after `handlePump`, as a function of the elapsed time. -/
theorem handlePump_pumpState (s : State) (nowMs : Nat) :
    (handlePump s nowMs).1.pumpState =
      if s.pumpState then !decide (usub nowMs s.pumpTimer ≥ PUMP_ON_TIME)
      else decide (usub nowMs s.pumpTimer ≥ PUMP_OFF_TIME) := by
  unfold handlePump pumpRemainLog
  rcases s with ⟨hs, fs, ls, ps, pt, lp, lw⟩
  cases ps <;> simp only [] <;> split_ifs <;> simp_all

/-- The phase start after `handlePump`: `nowMs` on a flip, unchanged otherwise. -/
theorem handlePump_pumpTimer (s : State) (nowMs : Nat) :
    (handlePump s nowMs).1.pumpTimer =
      if usub nowMs s.pumpTimer ≥ (if s.pumpState then PUMP_ON_TIME else PUMP_OFF_TIME)
      then nowMs else s.pumpTimer := by
  unfold handlePump pumpRemainLog
  rcases s with ⟨hs, fs, ls, ps, pt, lp, lw⟩
  cases ps <;> simp only [] <;> split_ifs <;> simp_all

/-- While the pump rests and every call comes before the rest phase is over,
`handlePump` keeps the pump flag and the phase start. -/
theorem runPump_rest (early : List Nat) (s : State) (hp : s.pumpState = false)
    (hearly : ∀ n ∈ early, s.pumpTimer ≤ n ∧ n < s.pumpTimer + 900000 ∧ n < ULONG_MOD) :
    (runPump s early).pumpState = false ∧ (runPump s early).pumpTimer = s.pumpTimer := by
  induction early generalizing s with
  | nil => exact ⟨hp, rfl⟩
  | cons n ns ih =>
    obtain ⟨h1, h2, h3⟩ := hearly n (List.mem_cons_self n ns)
    have he : usub n s.pumpTimer = n - s.pumpTimer := usub_of_le n s.pumpTimer h1 h3
    have hlt : ¬ (n - s.pumpTimer ≥ PUMP_OFF_TIME) := by
      unfold PUMP_OFF_TIME
      omega
    have hs1 : (handlePump s n).1.pumpState = false := by
      rw [handlePump_pumpState, hp, he]
      simp [hlt]
    have ht1 : (handlePump s n).1.pumpTimer = s.pumpTimer := by
      rw [handlePump_pumpTimer, hp, he]
      simp [hlt]
    have hrec := ih (handlePump s n).1 hs1 (by
      intro m hm
      rw [ht1]
      exact hearly m (List.mem_cons_of_mem n hm))
    rw [ht1] at hrec
    exact hrec

/-- The light flag after `handleLED` is the value computed from the time. -/
theorem handleLED_ledState (s : State) (hour minute : Nat) :
    (handleLED s hour minute).1.ledState =
      (decide (hour * 60 + minute ≥ 330) && decide (hour * 60 + minute < 1350)) := by
  unfold handleLED
  simp only []
  split_ifs with h
  · rfl
  · cases hv : s.ledState <;> simp_all

/-- The call `handleWaterControl` only ever writes the heater and fan flags. -/
theorem handleWaterControl_frame (disc : ℚ) (s : State) (t : CFloat) :
    ∃ nh nf : Bool, (handleWaterControl disc s t).1 = { s with heaterState := nh, fanState := nf } := by
  unfold handleWaterControl
  simp only []
  split_ifs
  · exact ⟨false, false, rfl⟩
  · exact ⟨s.heaterState, s.fanState, rfl⟩
  · exact ⟨_, _, commitWater_state s _ _⟩

/-- The heater flag after a tick with a finite reading `q` in `[0, 50]`, when
the disconnected value lies outside that range. -/
theorem heater_after_inrange (disc q : ℚ) (s : State) (hd : disc < 0 ∨ 50 < disc)
    (h0 : 0 ≤ q) (h50 : q ≤ 50) :
    (handleWaterControl disc s (CFloat.fin q)).1.heaterState = true ↔
      (s.heaterState = false ∧ q ≤ 22) ∨ (s.heaterState = true ∧ q < 45 / 2) := by
  rw [handleWaterControl_inrange disc q s hd h0 h50, commitWater_state]
  rcases s with ⟨hs, fs, ls, ps, pt, lp, lw⟩
  by_cases hA : q ≤ 22 <;> by_cases hB : (45 : ℚ) / 2 ≤ q <;> by_cases hC : (26 : ℚ) ≤ q <;>
    by_cases hD : q ≤ (51 : ℚ) / 2 <;> cases hs <;> cases fs <;>
    simp [heaterBlock, fanBlock, fle_fin_fin, fge_fin_fin, HEATER_ON, HEATER_OFF, FAN_ON,
      FAN_OFF, hA, hB, hC, hD] <;> linarith

/-- The heater block and the fan block commute: the only pair of branches whose
writes conflict (heater turns on, fan turns on) needs a reading that is both at
most `HEATER_ON` and at least `FAN_ON`. -/
theorem heaterBlock_fanBlock_comm (s : State) (t : CFloat) (nw : Bool × Bool) :
    heaterBlock s t (fanBlock s t nw) = fanBlock s t (heaterBlock s t nw) := by
  have key := fge_fanOn_of_fle_heaterOn t
  rcases s with ⟨hs, fs, ls, ps, pt, lp, lw⟩
  rcases nw with ⟨a, b⟩
  cases hs <;> cases fs <;> cases hA : CFloat.fle t HEATER_ON <;>
    cases hC : CFloat.fge t FAN_ON <;> cases hB : CFloat.fge t HEATER_OFF <;>
    cases hD : CFloat.fle t FAN_OFF <;> simp_all [heaterBlock, fanBlock]

/-- Evaluating the fan block first gives the same result as the code. -/
theorem handleWaterControlFanFirst_eq (disc : ℚ) (s : State) (t : CFloat) :
    handleWaterControlFanFirst disc s t = handleWaterControl disc s t := by
  unfold handleWaterControlFanFirst handleWaterControl
  simp only [heaterBlock_fanBlock_comm]

/-! ## Claims -/

/-- C1. Mutual exclusion as a reachable-state invariant: starting from heater
off and fan off, after any finite sequence of `handleWaterControl` ticks with
arbitrary readings (finite, infinite, NaN, the disconnected value), heater and
fan are not both on. -/
theorem C1_mutual_exclusion (disc : ℚ) (s : State) (hh : s.heaterState = false)
    (hf : s.fanState = false) (ts : List CFloat) :
    ¬ ((runWater disc s ts).heaterState = true ∧ (runWater disc s ts).fanState = true) := by
  apply runWater_excl
  simp [hh, hf]

/-- Witness of C1 at the start-up state and a run of readings of every kind. -/
theorem C1_mutual_exclusion_witness :
    (State.init 0 (-127)).heaterState = false ∧ (State.init 0 (-127)).fanState = false ∧
      ¬ ((runWater (-127) (State.init 0 (-127))
            [CFloat.fin 21, CFloat.fin 30, CFloat.nan, CFloat.fin (-127), CFloat.fin 60,
              CFloat.fin 24]).heaterState = true
        ∧ (runWater (-127) (State.init 0 (-127))
            [CFloat.fin 21, CFloat.fin 30, CFloat.nan, CFloat.fin (-127), CFloat.fin 60,
              CFloat.fin 24]).fanState = true) :=
  ⟨rfl, rfl, C1_mutual_exclusion (-127) (State.init 0 (-127)) rfl rfl _⟩

/-- C2. Fail-safe precedence: from any state with heater or fan on, a reading
that equals the disconnected value, is below 0 or is above 50 makes one call of
`handleWaterControl` switch both heater and fan off (all other globals kept)
and emit exactly one event, the abnormal-reading line. -/
theorem C2_failsafe_precedence (disc : ℚ) (s : State) (t : CFloat)
    (hon : s.heaterState = true ∨ s.fanState = true)
    (hbad : CFloat.feq t (CFloat.fin disc) = true ∨ CFloat.flt t (CFloat.fin 0) = true
      ∨ CFloat.fgt t (CFloat.fin 50) = true) :
    (handleWaterControl disc s t).1 = { s with heaterState := false, fanState := false }
      ∧ (handleWaterControl disc s t).1.heaterState = false
      ∧ (handleWaterControl disc s t).1.fanState = false
      ∧ events (handleWaterControl disc s t).2 = [Effect.logAbnormal] := by
  have h1 : (CFloat.feq t (CFloat.fin disc) || CFloat.flt t (CFloat.fin 0)
      || CFloat.fgt t (CFloat.fin 50)) = true := by
    rcases hbad with h | h | h <;> simp [h]
  have h2 : (s.heaterState || s.fanState) = true := by
    rcases hon with h | h <;> simp [h]
  simp [handleWaterControl, h1, h2, events, Effect.isLog]

/-- Witness of C2: the fan is on and the reading is 60, above the range. -/
theorem C2_failsafe_precedence_witness :
    ({ State.init 0 (-127) with fanState := true }.heaterState = true
        ∨ { State.init 0 (-127) with fanState := true }.fanState = true)
      ∧ (CFloat.feq (CFloat.fin 60) (CFloat.fin (-127)) = true
        ∨ CFloat.flt (CFloat.fin 60) (CFloat.fin 0) = true
        ∨ CFloat.fgt (CFloat.fin 60) (CFloat.fin 50) = true)
      ∧ (handleWaterControl (-127) { State.init 0 (-127) with fanState := true }
            (CFloat.fin 60)).1.fanState = false
      ∧ events (handleWaterControl (-127) { State.init 0 (-127) with fanState := true }
            (CFloat.fin 60)).2 = [Effect.logAbnormal] :=
  have hon : { State.init 0 (-127) with fanState := true }.heaterState = true
      ∨ { State.init 0 (-127) with fanState := true }.fanState = true := Or.inr rfl
  have hbad : CFloat.feq (CFloat.fin 60) (CFloat.fin (-127)) = true
      ∨ CFloat.flt (CFloat.fin 60) (CFloat.fin 0) = true
      ∨ CFloat.fgt (CFloat.fin 60) (CFloat.fin 50) = true :=
    Or.inr (Or.inr (by rw [fgt_fin_fin]; norm_num))
  ⟨hon, hbad, (C2_failsafe_precedence (-127) _ _ hon hbad).2.2.1,
    (C2_failsafe_precedence (-127) _ _ hon hbad).2.2.2⟩

/-- C3. Heater hysteresis: for every finite reading `q` in `[0, 50]` (the
disconnected value lying outside that range) and every prior state, after
`handleWaterControl` the heater is on exactly when it was off and `q ≤ 22.0`,
or it was on and `q < 22.5`.  So a heater that is off turns on at 22.0, stays
on at 22.4 and turns off at 22.5; and a heater that is off stays off for every
reading above 22.0. -/
theorem C3_heater_hysteresis (disc q : ℚ) (s : State) (hd : disc < 0 ∨ 50 < disc)
    (h0 : 0 ≤ q) (h50 : q ≤ 50) :
    ((handleWaterControl disc s (CFloat.fin q)).1.heaterState = true ↔
        (s.heaterState = false ∧ q ≤ 22) ∨ (s.heaterState = true ∧ q < 45 / 2))
      ∧ (s.heaterState = false →
        (handleWaterControl disc s (CFloat.fin 22)).1.heaterState = true
          ∧ (handleWaterControl disc (handleWaterControl disc s (CFloat.fin 22)).1
              (CFloat.fin (112 / 5))).1.heaterState = true
          ∧ (handleWaterControl disc
              (handleWaterControl disc (handleWaterControl disc s (CFloat.fin 22)).1
                (CFloat.fin (112 / 5))).1 (CFloat.fin (45 / 2))).1.heaterState = false)
      ∧ (s.heaterState = false → 22 < q →
        (handleWaterControl disc s (CFloat.fin q)).1.heaterState = false) := by
  refine ⟨heater_after_inrange disc q s hd h0 h50, ?_, ?_⟩
  · intro hoff
    have t1 : (handleWaterControl disc s (CFloat.fin 22)).1.heaterState = true :=
      (heater_after_inrange disc 22 s hd (by norm_num) (by norm_num)).mpr
        (Or.inl ⟨hoff, le_refl _⟩)
    have t2 : (handleWaterControl disc (handleWaterControl disc s (CFloat.fin 22)).1
        (CFloat.fin (112 / 5))).1.heaterState = true :=
      (heater_after_inrange disc (112 / 5) _ hd (by norm_num) (by norm_num)).mpr
        (Or.inr ⟨t1, by norm_num⟩)
    refine ⟨t1, t2, ?_⟩
    have h3 := heater_after_inrange disc (45 / 2)
      (handleWaterControl disc (handleWaterControl disc s (CFloat.fin 22)).1
        (CFloat.fin (112 / 5))).1 hd (by norm_num) (by norm_num)
    rw [t2] at h3
    norm_num at h3
    exact h3
  · intro hoff hq
    have h3 := heater_after_inrange disc q s hd h0 h50
    rw [hoff] at h3
    have hnot : ¬ q ≤ 22 := not_le.mpr hq
    simpa [hnot] using h3

/-- Witness of C3: the heater is on and the reading is 22.4. -/
theorem C3_heater_hysteresis_witness :
    ((-127 : ℚ) < 0 ∨ (50 : ℚ) < -127) ∧ (0 : ℚ) ≤ 112 / 5 ∧ (112 : ℚ) / 5 ≤ 50
      ∧ ((handleWaterControl (-127) exHeaterOn (CFloat.fin (112 / 5))).1.heaterState = true ↔
          (exHeaterOn.heaterState = false ∧ (112 : ℚ) / 5 ≤ 22)
            ∨ (exHeaterOn.heaterState = true ∧ (112 : ℚ) / 5 < 45 / 2)) :=
  ⟨Or.inl (by norm_num), by norm_num, by norm_num,
    (C3_heater_hysteresis (-127) (112 / 5) exHeaterOn (Or.inl (by norm_num)) (by norm_num)
      (by norm_num)).1⟩

/-- C4. Pump step: with `elapsed = now - pumpTimer` (as `unsigned long`),
`handlePump` sets `pumpState = false`, `pumpTimer = now` when the pump was on
and `elapsed ≥ 300000`; sets `pumpState = true`, `pumpTimer = now` when it was
off and `elapsed ≥ 900000`; and otherwise leaves both unchanged.  Consequently,
from rest with phase start `T0 = pumpTimer`, calls made before `T0 + 900000`
change neither, and the first call at or after `T0 + 900000` flips the pump to
running, after which `getPumpRemainMs` at that same instant returns 300000. -/
theorem C4_pump_step (s : State) (now : Nat) :
    (s.pumpState = true → usub now s.pumpTimer ≥ 300000 →
        (handlePump s now).1.pumpState = false ∧ (handlePump s now).1.pumpTimer = now)
      ∧ (s.pumpState = false → usub now s.pumpTimer ≥ 900000 →
        (handlePump s now).1.pumpState = true ∧ (handlePump s now).1.pumpTimer = now)
      ∧ (¬ (s.pumpState = true ∧ usub now s.pumpTimer ≥ 300000) →
        ¬ (s.pumpState = false ∧ usub now s.pumpTimer ≥ 900000) →
        (handlePump s now).1.pumpState = s.pumpState
          ∧ (handlePump s now).1.pumpTimer = s.pumpTimer)
      ∧ (∀ early : List Nat, s.pumpState = false →
        (∀ n ∈ early, s.pumpTimer ≤ n ∧ n < s.pumpTimer + 900000) →
        s.pumpTimer + 900000 ≤ now → now < 2 ^ 32 →
        (runPump s early).pumpState = false ∧ (runPump s early).pumpTimer = s.pumpTimer
          ∧ (handlePump (runPump s early) now).1.pumpState = true
          ∧ (handlePump (runPump s early) now).1.pumpTimer = now
          ∧ getPumpRemainMs (handlePump (runPump s early) now).1 now = 300000) := by
  refine ⟨?_, ?_, ?_, ?_⟩
  · intro hp he
    rw [handlePump_pumpState, handlePump_pumpTimer, hp]
    simp [PUMP_ON_TIME, he]
  · intro hp he
    rw [handlePump_pumpState, handlePump_pumpTimer, hp]
    simp [PUMP_OFF_TIME, he]
  · intro h1 h2
    rw [handlePump_pumpState, handlePump_pumpTimer]
    cases hp : s.pumpState <;> simp_all [PUMP_ON_TIME, PUMP_OFF_TIME]
  · intro early hp hearly hnow hlt
    have hrest := runPump_rest early s hp (by
      intro n hn
      obtain ⟨h1, h2⟩ := hearly n hn
      refine ⟨h1, h2, ?_⟩
      unfold ULONG_MOD
      omega)
    obtain ⟨hp1, ht1⟩ := hrest
    have he : usub now (runPump s early).pumpTimer = now - s.pumpTimer := by
      rw [ht1]
      exact usub_of_le now s.pumpTimer (by omega) hlt
    have hge : now - s.pumpTimer ≥ 900000 := by omega
    have hs2 : (handlePump (runPump s early) now).1.pumpState = true := by
      rw [handlePump_pumpState, hp1, he]
      simp [PUMP_OFF_TIME, hge]
    have ht2 : (handlePump (runPump s early) now).1.pumpTimer = now := by
      rw [handlePump_pumpTimer, hp1, he]
      simp [PUMP_OFF_TIME, hge]
    refine ⟨hp1, ht1, hs2, ht2, ?_⟩
    unfold getPumpRemainMs
    rw [hs2, ht2, usub_self]
    simp [PUMP_ON_TIME]

/-- Witness of C4: start-up at `millis() = 1000`, three calls during the rest
phase, then the call at 901000 ms, which is 15 min after the phase start. -/
theorem C4_pump_step_witness :
    (State.init 1000 (-127)).pumpState = false
      ∧ usub 901000 (State.init 1000 (-127)).pumpTimer ≥ 900000
      ∧ (∀ n ∈ [1000, 500000, 900999], (State.init 1000 (-127)).pumpTimer ≤ n
          ∧ n < (State.init 1000 (-127)).pumpTimer + 900000)
      ∧ (State.init 1000 (-127)).pumpTimer + 900000 ≤ 901000 ∧ 901000 < 2 ^ 32
      ∧ ((handlePump (State.init 1000 (-127)) 901000).1.pumpState = true
        ∧ (handlePump (State.init 1000 (-127)) 901000).1.pumpTimer = 901000)
      ∧ (runPump (State.init 1000 (-127)) [1000, 500000, 900999]).pumpState = false
      ∧ (handlePump (runPump (State.init 1000 (-127)) [1000, 500000, 900999])
          901000).1.pumpState = true
      ∧ getPumpRemainMs (handlePump (runPump (State.init 1000 (-127)) [1000, 500000, 900999])
          901000).1 901000 = 300000 :=
  have hp : (State.init 1000 (-127)).pumpState = false := rfl
  have he : usub 901000 (State.init 1000 (-127)).pumpTimer ≥ 900000 := by
    simp [State.init, usub, ULONG_MOD]
  have hearly : ∀ n ∈ [1000, 500000, 900999], (State.init 1000 (-127)).pumpTimer ≤ n
      ∧ n < (State.init 1000 (-127)).pumpTimer + 900000 := by
    simp [State.init]
  have hnow : (State.init 1000 (-127)).pumpTimer + 900000 ≤ 901000 := by
    simp [State.init]
  have hlt : 901000 < 2 ^ 32 := by norm_num
  have h := C4_pump_step (State.init 1000 (-127)) 901000
  have h4 := h.2.2.2 [1000, 500000, 900999] hp hearly hnow hlt
  ⟨hp, he, hearly, hnow, hlt, h.2.1 hp he, h4.1, h4.2.2.1, h4.2.2.2.2⟩

/-- C5. Pump remaining time: `getPumpRemainMs` returns `target - elapsed` when
`elapsed < target` and 0 otherwise, with `elapsed = now - pumpTimer` (as
`unsigned long`) and `target` 300000 if the pump is on, 900000 otherwise.
Hence at rest with phase start `T0 = pumpTimer` the result is 900000 at
`now = T0`, strictly decreases as `now` grows within `[T0, T0 + 900000]`, is 0
at `T0 + 900000` and stays 0 afterwards. -/
theorem C5_pump_remaining (s : State) (now : Nat) :
    getPumpRemainMs s now =
        (if usub now s.pumpTimer < (if s.pumpState then 300000 else 900000)
          then (if s.pumpState then 300000 else 900000) - usub now s.pumpTimer else 0)
      ∧ (s.pumpState = false →
        getPumpRemainMs s s.pumpTimer = 900000
          ∧ (∀ n1 n2 : Nat, s.pumpTimer ≤ n1 → n1 < n2 → n2 ≤ s.pumpTimer + 900000 →
              n2 < 2 ^ 32 → getPumpRemainMs s n2 < getPumpRemainMs s n1)
          ∧ (s.pumpTimer + 900000 < 2 ^ 32 → getPumpRemainMs s (s.pumpTimer + 900000) = 0)
          ∧ (∀ n : Nat, s.pumpTimer + 900000 ≤ n → n < 2 ^ 32 → getPumpRemainMs s n = 0)) := by
  have hgen : ∀ n : Nat, s.pumpTimer ≤ n → n < 2 ^ 32 → s.pumpState = false →
      getPumpRemainMs s n = 900000 - (n - s.pumpTimer) := by
    intro n h1 h2 hp
    unfold getPumpRemainMs
    rw [usub_of_le n s.pumpTimer h1 h2, hp]
    simp only [Bool.false_eq_true, if_false, PUMP_OFF_TIME]
    split_ifs <;> omega
  refine ⟨?_, ?_⟩
  · unfold getPumpRemainMs
    cases s.pumpState <;> simp only [PUMP_ON_TIME, PUMP_OFF_TIME] <;> split_ifs <;> omega
  · intro hp
    refine ⟨?_, ?_, ?_, ?_⟩
    · unfold getPumpRemainMs
      rw [usub_self, hp]
      simp [PUMP_OFF_TIME]
    · intro n1 n2 h1 h12 h2 hlt
      rw [hgen n1 h1 (by omega) hp, hgen n2 (by omega) hlt hp]
      omega
    · intro hlt
      rw [hgen _ (by omega) hlt hp]
      omega
    · intro n h1 hlt
      rw [hgen n (by omega) hlt hp]
      omega

/-- Witness of C5: at rest with phase start 1000, the remaining time drops
from 900000 at 1000 ms to 400000 at 501000 ms and is 0 from 901000 ms on. -/
theorem C5_pump_remaining_witness :
    (State.init 1000 (-127)).pumpState = false
      ∧ getPumpRemainMs (State.init 1000 (-127)) (State.init 1000 (-127)).pumpTimer = 900000
      ∧ getPumpRemainMs (State.init 1000 (-127)) 501000
          < getPumpRemainMs (State.init 1000 (-127)) 1000
      ∧ getPumpRemainMs (State.init 1000 (-127)) ((State.init 1000 (-127)).pumpTimer + 900000) = 0
      ∧ getPumpRemainMs (State.init 1000 (-127)) 2000000 = 0 :=
  have h := (C5_pump_remaining (State.init 1000 (-127)) 0).2 rfl
  ⟨rfl, h.1,
    h.2.1 1000 501000 (by simp [State.init]) (by norm_num) (by simp [State.init]) (by norm_num),
    h.2.2.1 (by simp [State.init]),
    h.2.2.2 2000000 (by simp [State.init]) (by norm_num)⟩

/-- C6. Light schedule: for every hour, minute and stored light state, after
`handleLED` the light flag is on if and only if `330 ≤ hour*60 + minute < 1350`,
whatever the stored flag was; so it is on at 05:30 and 22:29 and off at 05:29
and 22:30. -/
theorem C6_light_schedule (s : State) (hour minute : Nat) :
    ((handleLED s hour minute).1.ledState = true ↔
        330 ≤ hour * 60 + minute ∧ hour * 60 + minute < 1350)
      ∧ (handleLED s 5 30).1.ledState = true
      ∧ (handleLED s 22 29).1.ledState = true
      ∧ (handleLED s 5 29).1.ledState = false
      ∧ (handleLED s 22 30).1.ledState = false := by
  refine ⟨?_, ?_, ?_, ?_, ?_⟩
  · rw [handleLED_ledState]
    simp
  all_goals rw [handleLED_ledState]; decide

/-- C7. End-to-end thermal scenario: from heater and fan off, the readings
23.0, 22.0, 21.0, 22.6 at four successive ticks give the heater/fan states
off/off, on/off, on/off, off/off, with the single event HEATER ON at tick 2,
the single event HEATER OFF at tick 4, and no event at ticks 1 and 3. -/
theorem C7_thermal_scenario (disc : ℚ) (s : State) (hd : disc < 0 ∨ 50 < disc)
    (hh : s.heaterState = false) (hf : s.fanState = false) :
    runWaterTrace disc s [CFloat.fin 23, CFloat.fin 22, CFloat.fin 21, CFloat.fin (113 / 5)] =
      [(false, false, []),
        (true, false, [Effect.logRelay Relay.heater true]),
        (true, false, []),
        (false, false, [Effect.logRelay Relay.heater false])] := by
  have e1 := fun st => handleWaterControl_inrange disc 23 st hd (by norm_num) (by norm_num)
  have e2 := fun st => handleWaterControl_inrange disc 22 st hd (by norm_num) (by norm_num)
  have e3 := fun st => handleWaterControl_inrange disc 21 st hd (by norm_num) (by norm_num)
  have e4 := fun st => handleWaterControl_inrange disc (113 / 5) st hd (by norm_num) (by norm_num)
  rcases s with ⟨hs, fs, ls, ps, pt, lp, lw⟩
  simp only at hh hf
  subst hh hf
  simp only [runWaterTrace, e1, e2, e3, e4, commitWater_state, commitWater_events]
  simp [heaterBlock, fanBlock, fle_fin_fin, fge_fin_fin, HEATER_ON, HEATER_OFF, FAN_ON, FAN_OFF]
  norm_num

/-- Witness of C7 at the start-up state, with the disconnected value -127. -/
theorem C7_thermal_scenario_witness :
    ((-127 : ℚ) < 0 ∨ (50 : ℚ) < -127) ∧ (State.init 0 (-127)).heaterState = false
      ∧ (State.init 0 (-127)).fanState = false
      ∧ runWaterTrace (-127) (State.init 0 (-127))
          [CFloat.fin 23, CFloat.fin 22, CFloat.fin 21, CFloat.fin (113 / 5)] =
        [(false, false, []),
          (true, false, [Effect.logRelay Relay.heater true]),
          (true, false, []),
          (false, false, [Effect.logRelay Relay.heater false])] :=
  ⟨Or.inl (by norm_num), rfl, rfl,
    C7_thermal_scenario (-127) (State.init 0 (-127)) (Or.inl (by norm_num)) rfl rfl⟩

/-- C8. The pump duty cycle is independent of the thermal controller and its
fail-safe: `handleWaterControl` leaves `pumpState`, `pumpTimer` and `ledState`
(and the other non-thermal globals) unchanged for every state and reading, so
`handlePump` computes the same pump flag and phase start after it as before it;
and the pump flag and phase start computed by `handlePump` are the same for any
two states that agree on `pumpState` and `pumpTimer`. -/
theorem C8_pump_independent (disc : ℚ) (s s1 s2 : State) (t : CFloat) (now : Nat) :
    ((handleWaterControl disc s t).1.pumpState = s.pumpState
        ∧ (handleWaterControl disc s t).1.pumpTimer = s.pumpTimer
        ∧ (handleWaterControl disc s t).1.ledState = s.ledState
        ∧ (handleWaterControl disc s t).1.lastPumpRemainLog = s.lastPumpRemainLog
        ∧ (handleWaterControl disc s t).1.lastWaterTemp = s.lastWaterTemp)
      ∧ ((handlePump (handleWaterControl disc s t).1 now).1.pumpState
          = (handlePump s now).1.pumpState
        ∧ (handlePump (handleWaterControl disc s t).1 now).1.pumpTimer
          = (handlePump s now).1.pumpTimer)
      ∧ (s1.pumpState = s2.pumpState → s1.pumpTimer = s2.pumpTimer →
        (handlePump s1 now).1.pumpState = (handlePump s2 now).1.pumpState
          ∧ (handlePump s1 now).1.pumpTimer = (handlePump s2 now).1.pumpTimer) := by
  obtain ⟨nh, nf, hfr⟩ := handleWaterControl_frame disc s t
  refine ⟨?_, ?_, ?_⟩
  · rw [hfr]
    exact ⟨rfl, rfl, rfl, rfl, rfl⟩
  · rw [handlePump_pumpState, handlePump_pumpTimer, handlePump_pumpState, handlePump_pumpTimer,
      hfr]
    exact ⟨rfl, rfl⟩
  · intro hp ht
    rw [handlePump_pumpState, handlePump_pumpTimer, handlePump_pumpState, handlePump_pumpTimer,
      hp, ht]
    exact ⟨rfl, rfl⟩

/-- Witness of C8: two states with the same pump timer, one with the heater on
and a last reading of 21, the other with the fan on and no reading. -/
theorem C8_pump_independent_witness :
    exHeaterOn.pumpState = exFanOn.pumpState ∧ exHeaterOn.pumpTimer = exFanOn.pumpTimer
      ∧ (handlePump exHeaterOn 901000).1.pumpState = (handlePump exFanOn 901000).1.pumpState
      ∧ (handlePump exHeaterOn 901000).1.pumpTimer = (handlePump exFanOn 901000).1.pumpTimer :=
  have h := (C8_pump_independent (-127) (State.init 1000 (-127)) exHeaterOn exFanOn
    CFloat.nan 901000).2.2 rfl rfl
  ⟨rfl, rfl, h.1, h.2⟩

/-- C9. Dead zone: for every finite reading `q` with `22.5 < q < 26.0` (the
disconnected value lying outside `[0, 50]`) and heater and fan both off before
the tick, `handleWaterControl` leaves the state as it was, heater and fan off,
and performs no effect, so it emits no transition event. -/
theorem C9_dead_zone (disc q : ℚ) (s : State) (hd : disc < 0 ∨ 50 < disc)
    (hlo : 45 / 2 < q) (hhi : q < 26) (hh : s.heaterState = false) (hf : s.fanState = false) :
    (handleWaterControl disc s (CFloat.fin q)).1 = s
      ∧ (handleWaterControl disc s (CFloat.fin q)).1.heaterState = false
      ∧ (handleWaterControl disc s (CFloat.fin q)).1.fanState = false
      ∧ (handleWaterControl disc s (CFloat.fin q)).2 = []
      ∧ events (handleWaterControl disc s (CFloat.fin q)).2 = [] := by
  have hA : ¬ q ≤ 22 := by linarith
  have hC : ¬ (26 : ℚ) ≤ q := by linarith
  rw [handleWaterControl_inrange disc q s hd (by linarith) (by linarith)]
  rcases s with ⟨hs, fs, ls, ps, pt, lp, lw⟩
  simp only at hh hf
  subst hh hf
  simp [heaterBlock, fanBlock, commitWater, events, fle_fin_fin, fge_fin_fin, HEATER_ON,
    FAN_ON, hA, hC]

/-- Witness of C9: heater and fan off, reading 24. -/
theorem C9_dead_zone_witness :
    ((-127 : ℚ) < 0 ∨ (50 : ℚ) < -127) ∧ (45 : ℚ) / 2 < 24 ∧ (24 : ℚ) < 26
      ∧ (State.init 0 (-127)).heaterState = false ∧ (State.init 0 (-127)).fanState = false
      ∧ (handleWaterControl (-127) (State.init 0 (-127)) (CFloat.fin 24)).1 = State.init 0 (-127)
      ∧ events (handleWaterControl (-127) (State.init 0 (-127)) (CFloat.fin 24)).2 = [] :=
  have h := C9_dead_zone (-127) 24 (State.init 0 (-127)) (Or.inl (by norm_num)) (by norm_num)
    (by norm_num) rfl rfl
  ⟨Or.inl (by norm_num), by norm_num, by norm_num, rfl, rfl, h.1, h.2.2.2.2⟩

/-- C10. Light scheduler idempotence: calling `handleLED` twice in a row with
the same hour and minute, the second call performs no effect (so emits no
event) and leaves the state unchanged; and a call emits an event exactly when
the value computed from the time differs from the stored flag, that event
being the single LED line. -/
theorem C10_light_idempotent (s : State) (hour minute : Nat) :
    handleLED (handleLED s hour minute).1 hour minute = ((handleLED s hour minute).1, [])
      ∧ events (handleLED (handleLED s hour minute).1 hour minute).2 = []
      ∧ (events (handleLED s hour minute).2 ≠ [] ↔
          (decide (hour * 60 + minute ≥ 330) && decide (hour * 60 + minute < 1350))
            ≠ s.ledState)
      ∧ (events (handleLED s hour minute).2 = []
          ∨ events (handleLED s hour minute).2 =
            [Effect.logRelay Relay.led
              (decide (hour * 60 + minute ≥ 330) && decide (hour * 60 + minute < 1350))]) := by
  have h2 : handleLED (handleLED s hour minute).1 hour minute
      = ((handleLED s hour minute).1, []) := by
    have hl := handleLED_ledState s hour minute
    generalize (handleLED s hour minute).1 = s1 at hl ⊢
    unfold handleLED
    simp only []
    rw [hl]
    simp
  refine ⟨h2, ?_, ?_, ?_⟩
  · rw [h2]
    rfl
  · unfold handleLED
    simp only []
    split_ifs with h
    · simpa [events, Effect.isLog] using h
    · simpa [events] using h
  · unfold handleLED
    simp only []
    split_ifs with h
    · right
      simp [events, Effect.isLog]
    · left
      rfl

/-- C11 as stated is false: there is no disconnected value, state and reading in
`[0, 50]` for which evaluating the fan block before the heater block gives a
next heater or fan flag different from the one the code computes. -/
theorem C11_order_dependence_refuted :
    ¬ ∃ (disc : ℚ) (s : State) (q : ℚ), 0 ≤ q ∧ q ≤ 50 ∧
      ((handleWaterControlFanFirst disc s (CFloat.fin q)).1.heaterState
          ≠ (handleWaterControl disc s (CFloat.fin q)).1.heaterState
        ∨ (handleWaterControlFanFirst disc s (CFloat.fin q)).1.fanState
          ≠ (handleWaterControl disc s (CFloat.fin q)).1.fanState) := by
  rintro ⟨disc, s, q, -, -, h⟩
  rw [handleWaterControlFanFirst_eq] at h
  rcases h with h | h <;> exact h rfl

/-- C11, amended. The thermal step does not depend on the evaluation order of
its two hysteresis blocks: for every state, every reading and every pair of
pending flags the two blocks commute, so evaluating the fan block before the
heater block gives the same next state and the same effects as the code. -/
theorem C11_order_independent (disc : ℚ) (s : State) (t : CFloat) (nw : Bool × Bool) :
    heaterBlock s t (fanBlock s t nw) = fanBlock s t (heaterBlock s t nw)
      ∧ handleWaterControlFanFirst disc s t = handleWaterControl disc s t
      ∧ (handleWaterControlFanFirst disc s t).1.heaterState
          = (handleWaterControl disc s t).1.heaterState
      ∧ (handleWaterControlFanFirst disc s t).1.fanState
          = (handleWaterControl disc s t).1.fanState := by
  have h := handleWaterControlFanFirst_eq disc s t
  refine ⟨heaterBlock_fanBlock_comm s t nw, h, ?_, ?_⟩ <;> rw [h]

/-- C12. Pump timing survives rollover of the millisecond counter: for every
phase start `T0 = pumpTimer` and every true elapsed time `d < 2^32`, at
`now = (T0 + d) mod 2^32` the elapsed time computed by the sketch is `d`, so
`handlePump` flips the pump exactly when `d` has reached the phase duration
(300000 if the pump is on, 900000 otherwise), restarting the phase at `now`,
and `getPumpRemainMs` returns the phase duration minus `d`, or 0 once `d` has
reached it; also when the counter wrapped between `T0` and `now`. -/
theorem C12_pump_rollover (s : State) (d : Nat) (hd : d < 2 ^ 32) :
    usub ((s.pumpTimer + d) % 2 ^ 32) s.pumpTimer = d
      ∧ ((handlePump s ((s.pumpTimer + d) % 2 ^ 32)).1.pumpState = (!s.pumpState) ↔
          (if s.pumpState then 300000 else 900000) ≤ d)
      ∧ ((handlePump s ((s.pumpTimer + d) % 2 ^ 32)).1.pumpState = s.pumpState ↔
          d < (if s.pumpState then 300000 else 900000))
      ∧ (handlePump s ((s.pumpTimer + d) % 2 ^ 32)).1.pumpTimer =
          (if (if s.pumpState then 300000 else 900000) ≤ d then (s.pumpTimer + d) % 2 ^ 32
            else s.pumpTimer)
      ∧ getPumpRemainMs s ((s.pumpTimer + d) % 2 ^ 32) =
          (if d < (if s.pumpState then 300000 else 900000)
            then (if s.pumpState then 300000 else 900000) - d else 0) := by
  have he : usub ((s.pumpTimer + d) % 2 ^ 32) s.pumpTimer = d := usub_add_mod s.pumpTimer d hd
  refine ⟨he, ?_, ?_, ?_, ?_⟩
  · rw [handlePump_pumpState, he]
    cases s.pumpState <;> simp [PUMP_ON_TIME, PUMP_OFF_TIME]
  · rw [handlePump_pumpState, he]
    cases s.pumpState <;> simp [PUMP_ON_TIME, PUMP_OFF_TIME]
  · rw [handlePump_pumpTimer, he]
    cases s.pumpState <;> simp [PUMP_ON_TIME, PUMP_OFF_TIME]
  · unfold getPumpRemainMs
    rw [he]
    cases s.pumpState <;> simp only [PUMP_ON_TIME, PUMP_OFF_TIME] <;> split_ifs <;> omega

/-- Witness of C12: the rest phase starts 296 ms before the counter wraps; 15
min later the counter reads 899704 and the pump flips to running, and 10 min
after the phase start the counter reads 599704 with 5 min remaining. -/
theorem C12_pump_rollover_witness :
    900000 < 2 ^ 32
      ∧ ((State.init 4294967000 (-127)).pumpTimer + 900000) % 2 ^ 32 = 899704
      ∧ ((State.init 4294967000 (-127)).pumpTimer + 600000) % 2 ^ 32 = 599704
      ∧ (handlePump (State.init 4294967000 (-127))
          (((State.init 4294967000 (-127)).pumpTimer + 900000) % 2 ^ 32)).1.pumpState = true
      ∧ getPumpRemainMs (State.init 4294967000 (-127))
          (((State.init 4294967000 (-127)).pumpTimer + 600000) % 2 ^ 32) = 300000 :=
  have h1 := C12_pump_rollover (State.init 4294967000 (-127)) 900000 (by norm_num)
  have h2 := C12_pump_rollover (State.init 4294967000 (-127)) 600000 (by norm_num)
  ⟨by norm_num, by norm_num [State.init], by norm_num [State.init],
    h1.2.1.mpr (by simp [State.init]), by simpa [State.init] using h2.2.2.2.2⟩

end FishPlant
